import Mathlib

/-!
Verification of the query-orchestration core of the Ontario driving RAG
backend (`backend/src/services/ragService.ts`).

Text is modelled as `List Char`.  The close-handler of `RAGService.query`
scans the captured stdout with the JavaScript regexes
`/RESULT_START\n(.*)\nRESULT_END/s` and `/ERROR_START\n(.*)\nERROR_END/s`.
Both regexes are greedy: the overall match starts at the leftmost position
where the whole pattern can match, and `(.*)` then extends to the last
occurrence of the end-marker string.  `markerMatch` below embeds exactly
that semantics.
-/

/-!
JSON values as produced by `JSON.parse` in the close handler.  Numbers are
modelled as integers: no claim depends on fractional values, and floating
point is outside the embedding.
-/

/-!
The close handler of `RAGService.query` (ragService.ts lines 166-213) and
the other settlement sites of the query promise.  Each `reject` site of the
source is one `RejectReason` constructor, carrying the message data the
source puts into the `Error`.
-/

/-!
The generated Python script (ragService.ts lines 96-146).  `pythonScriptTail`
is the verbatim template text that follows the closing `"""` of the
`question` string literal, with `options.maxSources || 5` interpolated.
-/

/-!
The success path of the generated script (lines 110-135): build the
response dict from the engine result, truncating each source's content to
500 characters and the source list to `maxSources` entries, then print it
between the result markers.  `json.dumps` is modelled by `dumpsResponse`
(default separators, ASCII string escaping); the parsed value the close
handler sees is `respJson`.
-/

/-- `occursAt pat s i` holds when `pat` occurs in `s` starting at index `i`. -/

def occursAt (pat s : List Char) (i : Nat) : Bool :=
  pat.isPrefixOf (s.drop i)

/-- First index `≥ i` (scanning upward with explicit fuel) where `pat` occurs. -/

def firstIdxFrom (pat s : List Char) : Nat → Nat → Option Nat
  | _, 0 => none
  | i, fuel + 1 => if occursAt pat s i then some i else firstIdxFrom pat s (i + 1) fuel

/-- Index of the first occurrence of `pat` in `s`. -/

def firstIdx (pat s : List Char) : Option Nat :=
  firstIdxFrom pat s 0 (s.length + 1)

/-- Greatest index `j` with `lo ≤ j ≤ top` where `pat` occurs (downward scan). -/

def lastIdxDown (pat s : List Char) (lo : Nat) : Nat → Option Nat
  | 0 => if lo == 0 && occursAt pat s 0 then some 0 else none
  | j + 1 =>
    if decide (lo ≤ j + 1) && occursAt pat s (j + 1) then some (j + 1)
    else lastIdxDown pat s lo j

/-- Greatest index `j ≥ lo` where `pat` occurs in `s`. -/

def lastIdxFrom (pat s : List Char) (lo : Nat) : Option Nat :=
  lastIdxDown pat s lo s.length

/-- Embedding of `s.match(/START\n(.*)\nEND/s)` for literal markers: the match
starts at the first occurrence of the start marker, and the greedy `(.*)`
extends the capture to the last occurrence of the end marker. -/

def markerMatch (startM endM s : List Char) : Option (List Char) :=
  (firstIdx startM s).bind fun i =>
    (lastIdxFrom endM s (i + startM.length)).map fun j =>
      (s.drop (i + startM.length)).take (j - (i + startM.length))

/-- `stdout.match(/RESULT_START\n(.*)\nRESULT_END/s)`, capture group 1. -/

def resultMatch (s : List Char) : Option (List Char) :=
  markerMatch "RESULT_START\n".data "\nRESULT_END".data s

/-- `stdout.match(/ERROR_START\n(.*)\nERROR_END/s)`, capture group 1. -/

def errorMatch (s : List Char) : Option (List Char) :=
  markerMatch "ERROR_START\n".data "\nERROR_END".data s

inductive Json where
  | null : Json
  | bool (b : Bool) : Json
  | num (n : Int) : Json
  | str (s : List Char) : Json
  | arr (elems : List Json) : Json
  | obj (fields : List (List Char × Json)) : Json

def isWsChar (c : Char) : Bool :=
  c = ' ' || c = '\t' || c = '\n' || c = '\r'

def skipWs (s : List Char) : List Char :=
  s.dropWhile isWsChar

def hexVal (c : Char) : Option Nat :=
  if '0' ≤ c ∧ c ≤ '9' then some (c.toNat - 48)
  else if 'a' ≤ c ∧ c ≤ 'f' then some (c.toNat - 87)
  else if 'A' ≤ c ∧ c ≤ 'F' then some (c.toNat - 55)
  else none

/-- One string-escape sequence after a backslash, as accepted by `JSON.parse`. -/

def unescape1 : List Char → Option (Char × List Char)
  | '"' :: rest => some ('"', rest)
  | '\\' :: rest => some ('\\', rest)
  | '/' :: rest => some ('/', rest)
  | 'n' :: rest => some ('\n', rest)
  | 't' :: rest => some ('\t', rest)
  | 'r' :: rest => some ('\r', rest)
  | 'b' :: rest => some ('\x08', rest)
  | 'f' :: rest => some ('\x0c', rest)
  | 'u' :: a :: b :: c :: d :: rest =>
    match hexVal a, hexVal b, hexVal c, hexVal d with
    | some x, some y, some z, some w =>
      some (Char.ofNat (((x * 16 + y) * 16 + z) * 16 + w), rest)
    | _, _, _, _ => none
  | _ => none

/-- Body of a JSON string after the opening quote; strict about control
characters and escapes, as `JSON.parse` is. -/

def parseStringBody : Nat → List Char → Option (List Char × List Char)
  | _, '"' :: rest => some ([], rest)
  | fuel + 1, '\\' :: rest =>
    match unescape1 rest with
    | some (c, rest') => (parseStringBody fuel rest').map fun p => (c :: p.1, p.2)
    | none => none
  | fuel + 1, c :: rest =>
    if c.toNat < 32 then none
    else (parseStringBody fuel rest).map fun p => (c :: p.1, p.2)
  | _, _ => none

/-- Consume a run of decimal digits, accumulating their value. -/

def parseDigits : List Char → Nat → Nat → (Nat × Nat × List Char)
  | c :: rest, acc, count =>
    if c.isDigit then parseDigits rest (acc * 10 + (c.toNat - 48)) (count + 1)
    else (acc, count, c :: rest)
  | [], acc, count => (acc, count, [])

/-- JSON number (integral only; a following `.`, `e` or `E` is rejected since
fractional values are not modelled). -/

def parseNumber (s : List Char) : Option (Json × List Char) :=
  let (neg, s₁) := match s with
    | '-' :: rest => (true, rest)
    | _ => (false, s)
  match parseDigits s₁ 0 0 with
  | (_, 0, _) => none
  | (v, _ + 1, rest) =>
    match rest with
    | '.' :: _ => none
    | 'e' :: _ => none
    | 'E' :: _ => none
    | _ => some (.num (if neg then -(v : Int) else (v : Int)), rest)

mutual

/-- Recursive-descent JSON value parser (fuel-indexed embedding of the
grammar `JSON.parse` accepts). -/
def parseValue : Nat → List Char → Option (Json × List Char)
  | 0, _ => none
  | fuel + 1, s =>
    match skipWs s with
    | 'n' :: 'u' :: 'l' :: 'l' :: rest => some (.null, rest)
    | 't' :: 'r' :: 'u' :: 'e' :: rest => some (.bool true, rest)
    | 'f' :: 'a' :: 'l' :: 's' :: 'e' :: rest => some (.bool false, rest)
    | '"' :: rest => (parseStringBody fuel rest).map fun p => (.str p.1, p.2)
    | '[' :: rest =>
      (match skipWs rest with
       | ']' :: rest' => some (.arr [], rest')
       | _ => (parseArrElems fuel rest).map fun p => (.arr p.1, p.2))
    | '{' :: rest =>
      (match skipWs rest with
       | '}' :: rest' => some (.obj [], rest')
       | _ => (parseObjFields fuel rest).map fun p => (.obj p.1, p.2))
    | c :: rest =>
      if c = '-' || c.isDigit then parseNumber (c :: rest) else none
    | [] => none

/-- Comma-separated array elements up to the closing bracket. -/
def parseArrElems : Nat → List Char → Option (List Json × List Char)
  | 0, _ => none
  | fuel + 1, s =>
    match parseValue fuel s with
    | none => none
    | some (j, rest) =>
      match skipWs rest with
      | ',' :: rest' => (parseArrElems fuel rest').map fun p => (j :: p.1, p.2)
      | ']' :: rest' => some ([j], rest')
      | _ => none

/-- Comma-separated `"key": value` fields up to the closing brace. -/
def parseObjFields : Nat → List Char → Option (List (List Char × Json) × List Char)
  | 0, _ => none
  | fuel + 1, s =>
    match skipWs s with
    | '"' :: rest =>
      (match parseStringBody fuel rest with
       | none => none
       | some (k, rest₁) =>
         match skipWs rest₁ with
         | ':' :: rest₂ =>
           (match parseValue fuel rest₂ with
            | none => none
            | some (v, rest₃) =>
              match skipWs rest₃ with
              | ',' :: rest₄ => (parseObjFields fuel rest₄).map fun p => ((k, v) :: p.1, p.2)
              | '}' :: rest₄ => some ([(k, v)], rest₄)
              | _ => none)
         | _ => none)
    | _ => none

end

/-- `JSON.parse(s)`: one value, with only whitespace allowed around it. -/

def jsonParse (s : List Char) : Option Json :=
  match parseValue (2 * s.length + 2) s with
  | some (j, rest) => if (skipWs rest).isEmpty then some j else none
  | none => none

/-- Property access `obj[key]` on a parsed JSON object; on duplicate keys
`JSON.parse` keeps the last occurrence. -/

def getField (j : Json) (key : List Char) : Option Json :=
  match j with
  | .obj fields => ((fields.filter fun kv => kv.1 == key).getLast?).map fun kv => kv.2
  | _ => none

/-- JavaScript truthiness of a property (absent → `undefined` → falsy). -/

def truthy : Option Json → Bool
  | none => false
  | some .null => false
  | some (.bool b) => b
  | some (.num n) => n != 0
  | some (.str s) => !s.isEmpty
  | some (.arr _) => true
  | some (.obj _) => true

/-- Decimal digits of a natural number (fuel-indexed). -/

def natDigitsAux : Nat → Nat → List Char
  | 0, _ => []
  | fuel + 1, n =>
    if n = 0 then [] else natDigitsAux fuel (n / 10) ++ [Char.ofNat (48 + n % 10)]

def natToChars (n : Nat) : List Char :=
  if n = 0 then ['0'] else natDigitsAux (n + 1) n

def intToChars : Int → List Char
  | .ofNat n => natToChars n
  | .negSucc m => '-' :: natToChars (m + 1)

/-- Join a list of strings with a separator (used for JS array coercion and
for the modelled `json.dumps`). -/

def joinSep (sep : List Char) : List (List Char) → List Char
  | [] => []
  | [x] => x
  | x :: y :: xs => x ++ sep ++ joinSep sep (y :: xs)

/-- JavaScript string coercion, as used by the template literal
`RAG Error: ${errorData.error}` (absent property prints as `undefined`). -/

def jsToString : Option Json → List Char
  | none => "undefined".data
  | some .null => "null".data
  | some (.bool true) => "true".data
  | some (.bool false) => "false".data
  | some (.num n) => intToChars n
  | some (.str s) => s
  | some (.arr _) => "".data
  | some (.obj _) => "[object Object]".data

inductive RejectReason where
  /-- `throw new Error('RAG service not initialized')` (line 89). -/
  | notInitialized : RejectReason
  /-- `reject(new Error('RAG query timeout'))` in the timeout timer (line 223). -/
  | timeout : RejectReason
  /-- `reject(new Error(`RAG Error: ...`))` for a parsed error region (line 185). -/
  | ragError (msg : List Char) : RejectReason
  /-- `reject(new Error('RAG query failed'))` when `result.success` is falsy (line 199). -/
  | queryFailed : RejectReason
  /-- `reject(new Error('No valid result found in Python output'))` (line 202). -/
  | noValidResult : RejectReason
  /-- `reject(new Error('Failed to parse RAG response'))` in the catch (line 211). -/
  | parseFailed : RejectReason
  /-- `reject(error)` in the process 'error' handler (line 217). -/
  | spawnFailure (msg : List Char) : RejectReason
deriving DecidableEq

/-- How the query promise settles: `resolve(result)` or `reject(err)`. -/

inductive SettleEvent where
  | resolved (result : Json) : SettleEvent
  | rejected (reason : RejectReason) : SettleEvent

/-- The documented error taxonomy of the spec (§7). -/

inductive ErrorKindSpec where
  | serviceNotInitialized : ErrorKindSpec
  | queryTimeout : ErrorKindSpec
  | protocolViolation : ErrorKindSpec
  | externalBackendError : ErrorKindSpec
deriving DecidableEq

/-- Map of each reject site onto the spec's taxonomy; a spawn 'error' event
carries the raw system error and has no documented kind. -/

def kindOf : RejectReason → Option ErrorKindSpec
  | .notInitialized => some .serviceNotInitialized
  | .timeout => some .queryTimeout
  | .ragError _ => some .externalBackendError
  | .queryFailed => some .externalBackendError
  | .noValidResult => some .protocolViolation
  | .parseFailed => some .protocolViolation
  | .spawnFailure _ => none

/-- The close handler body (lines 178-212): regex-scan stdout, prefer the
error region, `JSON.parse` the capture (a parse throw lands in the catch),
check the `success` flag, and settle the promise accordingly. -/

def handleClose (stdout : List Char) : SettleEvent :=
  match errorMatch stdout with
  | some ecap =>
    match jsonParse ecap with
    | some errorData =>
      .rejected (.ragError ("RAG Error: ".data ++ jsToString (getField errorData "error".data)))
    | none => .rejected .parseFailed
  | none =>
    match resultMatch stdout with
    | some rcap =>
      match jsonParse rcap with
      | some result =>
        if truthy (getField result "success".data) then .resolved result
        else .rejected .queryFailed
      | none => .rejected .parseFailed
    | none => .rejected .noValidResult

/-- `setTimeout(..., 60000)` (line 224). -/

def QUERY_TIMEOUT_MS : Nat := 60000

/-- State of one dispatched query: the promise's settlement (a JS promise
keeps only the first `resolve`/`reject`) and whether `kill()` has been
called on the external process. -/

structure RaceState where
  promise : Option SettleEvent
  killed : Bool

def initRace : RaceState := ⟨none, false⟩

/-- `resolve`/`reject` on the promise: a later settlement is a no-op. -/

def settleR (st : RaceState) (e : SettleEvent) : RaceState :=
  match st.promise with
  | some _ => st
  | none => { st with promise := some e }

/-- The timeout timer callback (lines 221-224): `pythonProcess.kill()` runs
unconditionally (the timer is never cleared), then `reject` of the timeout
error, which is a no-op if the promise already settled. -/

def onTimeout (st : RaceState) : RaceState :=
  settleR { st with killed := true } (.rejected .timeout)

/-- The 'close' handler settles the promise with the parsed outcome. -/

def onClose (stdout : List Char) (st : RaceState) : RaceState :=
  settleR st (handleClose stdout)

/-- One dispatched query: the process close (at `closeAt` ms from dispatch,
`none` if it never closes by itself) races the 60 000 ms timer; both
callbacks run, in timestamp order. -/

def runQueryRace (closeAt : Option Nat) (stdout : List Char) : RaceState :=
  match closeAt with
  | some t =>
    if t < QUERY_TIMEOUT_MS then onTimeout (onClose stdout initRace)
    else onClose stdout (onTimeout initRace)
  | none => onTimeout initRace

/-- In-memory running statistics of the service instance. -/

structure Stats where
  queryCount : Nat
  totalQueryTime : Nat
deriving DecidableEq

/-- Lines 167-169: at the top of the close handler, before any branching:
`this.queryCount++; this.totalQueryTime += duration`. -/

def closeStatsUpdate (s : Stats) (duration : Nat) : Stats :=
  { queryCount := s.queryCount + 1, totalQueryTime := s.totalQueryTime + duration }

/-- How one query attempt terminates, for statistics purposes. -/

inductive QueryTermination where
  /-- The spawned process emitted 'close' with the given elapsed duration
  and captured stdout. -/
  | closed (duration : Nat) (stdout : List Char) : QueryTermination
  /-- The process 'error' event fired and no 'close' event followed. -/
  | spawnErrorNoClose : QueryTermination
  /-- The call was rejected by the `isInitialized` guard before dispatch. -/
  | rejectedBeforeDispatch : QueryTermination

/-- Statistics are updated only in the 'close' handler. -/

def statsAfterQuery (s : Stats) : QueryTermination → Stats
  | .closed d _ => closeStatsUpdate s d
  | .spawnErrorNoClose => s
  | .rejectedBeforeDispatch => s

def statsRun (s : Stats) : List QueryTermination → Stats
  | [] => s
  | ev :: evs => statsRun (statsAfterQuery s ev) evs

def isClosedTermination : QueryTermination → Bool
  | .closed _ _ => true
  | _ => false

def closedDuration : QueryTermination → Nat
  | .closed d _ => d
  | _ => 0

/-- `getStats()` (lines 228-236), with the guarded average. -/

structure RAGStatsModel where
  totalChunks : Nat
  categories : List (List Char)
  averageQueryTime : ℚ
  totalQueries : Nat
  systemHealth : List Char

def getStats (isInitialized : Bool) (s : Stats) : RAGStatsModel :=
  { totalChunks := 397
  , categories := ["speed_limits".data, "traffic_rules".data, "safety".data,
                   "licensing".data, "general".data]
  , averageQueryTime :=
      if s.queryCount > 0 then (s.totalQueryTime : ℚ) / (s.queryCount : ℚ) else 0
  , totalQueries := s.queryCount
  , systemHealth := if isInitialized then "healthy".data else "error".data }

/-- `testPythonEnvironment` (lines 61-85) resolves iff the probe process
exits with code 0 and its output contains `Python OK`; `initialize` sets
`isInitialized` exactly when the probe resolved. -/

def probeSuccess (code : Int) (output : List Char) : Bool :=
  code == 0 && (firstIdx "Python OK".data output).isSome

/-- Entry of `query` (lines 87-92): the guard runs before the promise
executor, so a guard rejection spawns nothing. -/

inductive DispatchResult where
  | rejectedNoSpawn (r : RejectReason) : DispatchResult
  | dispatched : DispatchResult
deriving DecidableEq

def queryDispatch (isInitialized : Bool) : DispatchResult :=
  if isInitialized then .dispatched else .rejectedNoSpawn .notInitialized

/-- Number of external processes spawned by one `query` call. -/

def spawnsOf : DispatchResult → Nat
  | .rejectedNoSpawn _ => 0
  | .dispatched => 1

/-- `question.replace(/"/g, '\\"')` (line 109): every double quote becomes a
backslash-quote pair; no other character is touched. -/

def escapeQuestion (q : List Char) : List Char :=
  q.flatMap fun c => if c = '"' then ['\\', '"'] else [c]

/-- `options.maxSources || 5`: JavaScript falsy-or on the interpolated value. -/

def effectiveMaxSources : Option Nat → Nat
  | some n => if n == 0 then 5 else n
  | none => 5

def pythonScriptTailA : List Char :=
  "\n    result = rag.optimized_query(question)\n    \n    # Format response\n    response = \x7b\n        \"success\": True,\n        \"answer\": result[\"answer\"],\n        \"sources\": [\n            \x7b\n                \"content\": chunk[\"content\"][:500] + (\"...\" if len(chunk[\"content\"]) > 500 else \"\"),\n                \"page\": chunk[\"metadata\"][\"page\"],\n                \"score\": chunk.get(\"final_score\", chunk.get(\"score\", 0)),\n                \"category\": chunk[\"metadata\"].get(\"category\", \"general\")\n            \x7d\n            for chunk in result[\"relevant_chunks\"][:".data

def pythonScriptTailB : List Char :=
  "]\n        ],\n        \"metadata\": \x7b\n            \"category\": result.get(\"category_hint\", \"general\"),\n            \"methods\": result.get(\"methods\", []),\n            \"queryTime\": result.get(\"query_time\", 0),\n            \"chunksProcessed\": len(result[\"relevant_chunks\"])\n        \x7d\n    \x7d\n    \n    print(\"RESULT_START\")\n    print(json.dumps(response))\n    print(\"RESULT_END\")\n    \nexcept Exception as e:\n    error_response = \x7b\n        \"success\": False,\n        \"error\": str(e),\n        \"type\": type(e).__name__\n    \x7d\n    print(\"ERROR_START\")\n    print(json.dumps(error_response))\n    print(\"ERROR_END\")\n".data

def pythonScriptTail (maxSources : Option Nat) : List Char :=
  pythonScriptTailA ++ natToChars (effectiveMaxSources maxSources) ++ pythonScriptTailB

/-- Text of the generated script from just after the opening `"""` of the
question literal to the end of the script. -/

def questionLiteralAndRest (q : List Char) (maxSources : Option Nat) : List Char :=
  escapeQuestion q ++ "\"\"\"".data ++ pythonScriptTail maxSources

/-- CPython tokenizer for the body of a triple-quoted string: an unescaped
`"""` closes it; a backslash consumes the following character; reaching the
end of the source without a closing `"""` is a syntax error (`none`). -/

def scanTriple : Nat → List Char → Option (List Char)
  | _, '"' :: '"' :: '"' :: rest => some rest
  | fuel + 1, '\\' :: _ :: rest => scanTriple fuel rest
  | fuel + 1, _ :: rest => scanTriple fuel rest
  | _, _ => none

/-- The question string literal of the generated script is well formed iff
the scan finds a closing `"""`. -/

def questionLiteralTerminates (q : List Char) (maxSources : Option Nat) : Bool :=
  (scanTriple ((questionLiteralAndRest q maxSources).length + 1)
    (questionLiteralAndRest q maxSources)).isSome

/-- `chunk["content"][:500] + ("..." if len(chunk["content"]) > 500 else "")`. -/

def truncateContent (content : List Char) : List Char :=
  content.take 500 ++ (if content.length > 500 then "...".data else [])

/-- One element of `result["relevant_chunks"]` as the script reads it. -/

structure Chunk where
  content : List Char
  page : Int
  /-- `chunk.get("final_score", chunk.get("score", 0))`; scores are modelled
  as integers (floating point is outside the embedding). -/
  score : Int
  category : Option (List Char)

/-- The dict returned by `rag.optimized_query(question)`. -/

structure EngineResult where
  answer : List Char
  relevant_chunks : List Chunk
  category_hint : Option (List Char)
  methods : List (List Char)
  query_time : Int

structure SourceItem where
  content : List Char
  page : Int
  score : Int
  category : List Char

structure RespMeta where
  category : List Char
  methods : List (List Char)
  queryTime : Int
  chunksProcessed : Nat

structure Response where
  answer : List Char
  sources : List SourceItem
  metadata : RespMeta

def mkSourceItem (ch : Chunk) : SourceItem :=
  { content := truncateContent ch.content
  , page := ch.page
  , score := ch.score
  , category := ch.category.getD "general".data }

/-- The `response` dict built by the script for `maxS` effective sources. -/

def buildResponse (maxS : Nat) (er : EngineResult) : Response :=
  { answer := er.answer
  , sources := (er.relevant_chunks.take maxS).map mkSourceItem
  , metadata :=
    { category := er.category_hint.getD "general".data
    , methods := er.methods
    , queryTime := er.query_time
    , chunksProcessed := er.relevant_chunks.length } }

/-- `json.dumps` escaping of one string character (ASCII payloads). -/

def escJsonChar (c : Char) : List Char :=
  if c = '"' then ['\\', '"']
  else if c = '\\' then ['\\', '\\']
  else if c = '\n' then ['\\', 'n']
  else if c = '\r' then ['\\', 'r']
  else if c = '\t' then ['\\', 't']
  else if c = '\x08' then ['\\', 'b']
  else if c = '\x0c' then ['\\', 'f']
  else if c.toNat < 32 then
    ['\\', 'u', '0', '0', Char.ofNat (48 + c.toNat / 16),
     if c.toNat % 16 < 10 then Char.ofNat (48 + c.toNat % 16)
     else Char.ofNat (87 + c.toNat % 16)]
  else [c]

def escJson (s : List Char) : List Char := s.flatMap escJsonChar

def dumpsStr (s : List Char) : List Char := '"' :: escJson s ++ ['"']

def dumpsSource (s : SourceItem) : List Char :=
  "\x7b\"content\": ".data ++ dumpsStr s.content ++
  ", \"page\": ".data ++ intToChars s.page ++
  ", \"score\": ".data ++ intToChars s.score ++
  ", \"category\": ".data ++ dumpsStr s.category ++ "\x7d".data

def dumpsMeta (m : RespMeta) : List Char :=
  "\x7b\"category\": ".data ++ dumpsStr m.category ++
  ", \"methods\": [".data ++ joinSep ", ".data (m.methods.map dumpsStr) ++
  "], \"queryTime\": ".data ++ intToChars m.queryTime ++
  ", \"chunksProcessed\": ".data ++ natToChars m.chunksProcessed ++ "\x7d".data

/-- `json.dumps(response)` with the dict's insertion order and default
separators. -/

def dumpsResponse (r : Response) : List Char :=
  "\x7b\"success\": true, \"answer\": ".data ++ dumpsStr r.answer ++
  ", \"sources\": [".data ++ joinSep ", ".data (r.sources.map dumpsSource) ++
  "], \"metadata\": ".data ++ dumpsMeta r.metadata ++ "\x7d".data

/-- The JSON value `JSON.parse` recovers from `dumpsSource`. -/

def sourceJson (s : SourceItem) : Json :=
  .obj [("content".data, .str s.content), ("page".data, .num s.page),
        ("score".data, .num s.score), ("category".data, .str s.category)]

def metaJson (m : RespMeta) : Json :=
  .obj [("category".data, .str m.category),
        ("methods".data, .arr (m.methods.map Json.str)),
        ("queryTime".data, .num m.queryTime),
        ("chunksProcessed".data, .num (m.chunksProcessed : Int))]

def respJson (r : Response) : Json :=
  .obj [("success".data, .bool true), ("answer".data, .str r.answer),
        ("sources".data, .arr (r.sources.map sourceJson)),
        ("metadata".data, metaJson r.metadata)]

/-- `print("RESULT_START"); print(json.dumps(response)); print("RESULT_END")`:
the stdout produced by the success path of the script. -/

def scriptSuccessStdout (maxS : Nat) (er : EngineResult) : List Char :=
  "RESULT_START\n".data ++ (dumpsResponse (buildResponse maxS er) ++ "\nRESULT_END\n".data)

/-- `print("ERROR_START"); print(json.dumps(error_response)); print("ERROR_END")`:
stdout of the except path, for a backend exception with message `e` and
class name `t`. -/

def errorPayloadJson (e t : List Char) : Json :=
  .obj [("success".data, .bool false), ("error".data, .str e), ("type".data, .str t)]

/-- Length of the `sources` field of a parsed result, as the HTTP layer
reads it from the resolved value. -/

def sourcesLen (j : Json) : Nat :=
  match getField j "sources".data with
  | some (.arr xs) => xs.length
  | _ => 0


/-- Concrete engine result used to exercise the success path of C1. -/
def c1Engine : EngineResult :=
  { answer := "Answer text".data
  , relevant_chunks :=
      [{ content := "chunk one".data, page := 3, score := 2,
         category := some "speed_limits".data },
       { content := "chunk two".data, page := 7, score := 1, category := none }]
  , category_hint := none
  , methods := ["bm25".data]
  , query_time := 2 }

/-- Captured output with two stacked well-formed result marker pairs. -/
def c3Stdout : List Char :=
  "RESULT_START\nA\nRESULT_END\nRESULT_START\nB\nRESULT_END".data

/-- Captured output of the spec's C5 scenario: an error region whose payload
reports message "boom" and type "ValueError". -/
def c5Stdout : List Char :=
  "ERROR_START\n\x7b\"success\":false,\"error\":\"boom\",\"type\":\"ValueError\"\x7d\nERROR_END\n".data

/-- Captured output containing both a well-formed error region and a
well-formed result region. -/
def c4Stdout : List Char :=
  "ERROR_START\n\x7b\"success\":false,\"error\":\"tb\",\"type\":\"KeyError\"\x7d\nERROR_END\nRESULT_START\n\x7b\"success\":true\x7d\nRESULT_END\n".data

theorem isPrefixOf_self_append (p t : List Char) : p.isPrefixOf (p ++ t) = true := by
  induction p with
  | nil => simp [List.isPrefixOf]
  | cons a as ih => simp [List.isPrefixOf, ih]

theorem length_le_of_isPrefixOf {p l : List Char} (h : p.isPrefixOf l = true) :
    p.length ≤ l.length := by
  induction p generalizing l with
  | nil => simp
  | cons a as ih =>
    cases l with
    | nil => simp [List.isPrefixOf] at h
    | cons b bs =>
      simp only [List.isPrefixOf, Bool.and_eq_true] at h
      simpa using ih h.2

theorem occursAt_add_length_le {pat s : List Char} {i : Nat} (hne : pat ≠ [])
    (h : occursAt pat s i = true) : i + pat.length ≤ s.length := by
  have hlen : pat.length ≤ (s.drop i).length := length_le_of_isPrefixOf h
  rw [List.length_drop] at hlen
  have hpos : 0 < pat.length := List.length_pos.mpr hne
  omega

theorem occursAt_head {c : Char} {p s : List Char} {i : Nat}
    (h : occursAt (c :: p) s i = true) : (s.drop i).head? = some c := by
  unfold occursAt at h
  cases hd : s.drop i with
  | nil => rw [hd] at h; simp [List.isPrefixOf] at h
  | cons b bs =>
    rw [hd] at h
    simp only [List.isPrefixOf, Bool.and_eq_true, beq_iff_eq] at h
    simp [h.1]

theorem firstIdx_of_prefixAt0 {pat s : List Char} (h : pat.isPrefixOf s = true) :
    firstIdx pat s = some 0 := by
  unfold firstIdx firstIdxFrom
  simp [occursAt, h]

theorem lastIdxDown_eq_some {pat s : List Char} {lo j : Nat} :
    ∀ top, lo ≤ j → j ≤ top → occursAt pat s j = true →
      (∀ k, j < k → k ≤ top → occursAt pat s k = false) →
      lastIdxDown pat s lo top = some j := by
  intro top
  induction top with
  | zero =>
    intro hlo hj hocc _
    interval_cases j
    unfold lastIdxDown
    simp_all
  | succ n ih =>
    intro hlo hj hocc hnone
    by_cases hje : j = n + 1
    · subst hje
      unfold lastIdxDown
      simp [hlo, hocc]
    · have hjn : j ≤ n := by omega
      have htop : occursAt pat s (n + 1) = false := hnone (n + 1) (by omega) (by omega)
      unfold lastIdxDown
      simp only [htop, Bool.and_false, Bool.false_eq_true, if_false]
      exact ih hlo hjn hocc fun k hk1 hk2 => hnone k hk1 (by omega)

theorem lastIdxDown_eq_none {pat s : List Char} {lo : Nat} :
    ∀ top, (∀ k, lo ≤ k → k ≤ top → occursAt pat s k = false) →
      lastIdxDown pat s lo top = none := by
  intro top
  induction top with
  | zero =>
    intro h
    unfold lastIdxDown
    by_cases hlo : lo = 0
    · subst hlo; simp [h 0 (by omega) (by omega)]
    · simp [hlo]
  | succ n ih =>
    intro h
    unfold lastIdxDown
    by_cases hlo : lo ≤ n + 1
    · simp only [h (n + 1) hlo (by omega), Bool.and_false, Bool.false_eq_true, if_false]
      exact ih fun k hk1 hk2 => h k hk1 (by omega)
    · have hd : decide (lo ≤ n + 1) = false := by simpa using hlo
      simp only [hd, Bool.false_and, Bool.false_eq_true, if_false]
      exact ih fun k hk1 hk2 => h k hk1 (by omega)

theorem getElem?_of_occursAt_head {c : Char} {p s : List Char} {k : Nat}
    (h : occursAt (c :: p) s k = true) : s[k]? = some c := by
  have hh := occursAt_head h
  rw [List.head?_eq_getElem?, List.getElem?_drop] at hh
  simpa using hh

theorem resultMatch_block (mid : List Char) :
    resultMatch ("RESULT_START\n".data ++ (mid ++ "\nRESULT_END\n".data)) = some mid := by
  set S : List Char := "RESULT_START\n".data with hS
  set E : List Char := "\nRESULT_END".data with hE
  set T : List Char := "\nRESULT_END\n".data with hT
  set s : List Char := S ++ (mid ++ T) with hs
  have hS13 : S.length = 13 := by decide
  have hE11 : E.length = 11 := by decide
  have hT12 : T.length = 12 := by decide
  have hslen : s.length = 25 + mid.length := by
    simp [hs, hS13, hT12]; omega
  have hocc : occursAt E s (13 + mid.length) = true := by
    unfold occursAt
    have hd : s.drop (13 + mid.length) = T := by
      have : s = (S ++ mid) ++ T := by simp [hs]
      rw [this, show 13 + mid.length = (S ++ mid).length by rw [List.length_append, hS13]]
      exact List.drop_left _ _
    rw [hd]
    decide
  have hnone : ∀ k, 13 + mid.length < k → k ≤ s.length → occursAt E s k = false := by
    intro k hk1 hk2
    cases hoc : occursAt E s k with
    | false => rfl
    | true =>
      exfalso
      have hle := occursAt_add_length_le (by decide : E ≠ []) hoc
      rw [hE11, hslen] at hle
      have hk14 : k = 14 + mid.length := by omega
      have hdrop : s.drop k = T.drop 1 := by
        have hsplit : s = (S ++ mid) ++ T := by simp [hs]
        rw [hsplit, hk14, show 14 + mid.length = (S ++ mid).length + 1 by
          rw [List.length_append, hS13]; omega]
        exact List.drop_append 1
      unfold occursAt at hoc
      rw [hdrop] at hoc
      revert hoc
      decide
  have hlast : lastIdxFrom E s 13 = some (13 + mid.length) := by
    unfold lastIdxFrom
    exact lastIdxDown_eq_some s.length (by omega) (by omega) hocc hnone
  have hd13 : s.drop 13 = mid ++ T := by
    rw [hs, show (13 : Nat) = S.length from hS13.symm]
    exact List.drop_left _ _
  unfold resultMatch markerMatch
  rw [show firstIdx "RESULT_START\n".data s = some 0 from
        firstIdx_of_prefixAt0 (isPrefixOf_self_append _ _)]
  simp only [Option.some_bind]
  rw [show (0 + ("RESULT_START\n".data).length) = 13 by decide]
  rw [show lastIdxFrom "\nRESULT_END".data s 13 = some (13 + mid.length) from hlast]
  simp only [Option.map_some']
  rw [hd13, show 13 + mid.length - 13 = mid.length by omega, List.take_left]

theorem errorMatch_resultBlock (mid : List Char) (hnl : '\n' ∉ mid)
    (hhd : mid.head? = some '{') :
    errorMatch ("RESULT_START\n".data ++ (mid ++ "\nRESULT_END\n".data)) = none := by
  set S : List Char := "RESULT_START\n".data with hS
  set T : List Char := "\nRESULT_END\n".data with hT
  set EE : List Char := "\nERROR_END".data with hEE
  set s : List Char := S ++ (mid ++ T) with hs
  have hS13 : S.length = 13 := by decide
  have hT12 : T.length = 12 := by decide
  have hslen : s.length = 25 + mid.length := by
    simp [hs, hS13, hT12]; omega
  obtain ⟨mid', hmid⟩ : ∃ m', mid = '{' :: m' := by
    cases mid with
    | nil => simp at hhd
    | cons a as => simp at hhd; exact ⟨as, by rw [hhd]⟩
  have hEEnone : ∀ k, occursAt EE s k = false := by
    intro k
    cases hoc : occursAt EE s k with
    | false => rfl
    | true =>
      exfalso
      have hnlk : s[k]? = some '\n' := by
        have : occursAt ('\n' :: "ERROR_END".data) s k = true := by
          rw [show ('\n' :: "ERROR_END".data) = EE by decide]; exact hoc
        exact getElem?_of_occursAt_head this
      have hle := occursAt_add_length_le (by decide : EE ≠ []) hoc
      rw [show EE.length = 10 by decide, hslen] at hle
      by_cases hk13 : k < 13
      · have hSk : S[k]? = some '\n' := by
          rw [hs, List.getElem?_append_left (by omega : k < S.length)] at hnlk
          exact hnlk
        have hk12 : k = 12 := by
          have h12 : ∀ m, m < 13 → ("RESULT_START\n".data)[m]? = some '\n' → m = 12 := by decide
          exact h12 k hk13 (by rw [← hS]; exact hSk)
        subst hk12
        have hdrop : s.drop 12 = '\n' :: (mid ++ T) := by
          rw [hs, List.drop_append_of_le_length (by omega : 12 ≤ S.length)]
          rw [show S.drop 12 = ['\n'] by decide]
          rfl
        unfold occursAt at hoc
        rw [hdrop, show EE = '\n' :: "ERROR_END".data by decide] at hoc
        simp only [List.isPrefixOf, Bool.and_eq_true, beq_iff_eq] at hoc
        rw [hmid] at hoc
        revert hoc
        simp [List.isPrefixOf]
      · by_cases hkmid : k < 13 + mid.length
        · have : (mid ++ T)[k - 13]? = some '\n' := by
            rw [hs, List.getElem?_append_right (by omega : S.length ≤ k), hS13] at hnlk
            exact hnlk
          rw [List.getElem?_append_left (by omega : k - 13 < mid.length)] at this
          exact hnl (List.getElem?_mem this)
        · have hm : T[k - (13 + mid.length)]? = some '\n' := by
            have hsplit : s = (S ++ mid) ++ T := by simp [hs]
            rw [hsplit] at hnlk
            rw [List.getElem?_append_right (by rw [List.length_append, hS13]; omega)] at hnlk
            rw [show (S ++ mid).length = 13 + mid.length by
              rw [List.length_append, hS13]] at hnlk
            exact hnlk
          have hmlt : k - (13 + mid.length) ≤ 2 := by omega
          have hTnl : ∀ m, m < 12 → ("\nRESULT_END\n".data)[m]? = some '\n' →
              m = 0 ∨ m = 11 := by decide
          have h011 := hTnl (k - (13 + mid.length)) (by omega) (by rw [← hT]; exact hm)
          have hk0 : k = 13 + mid.length := by omega
          subst hk0
          have hdrop : s.drop (13 + mid.length) = T := by
            have hsplit : s = (S ++ mid) ++ T := by simp [hs]
            rw [hsplit, show 13 + mid.length = (S ++ mid).length by
              rw [List.length_append, hS13]]
            exact List.drop_left _ _
          unfold occursAt at hoc
          rw [hdrop] at hoc
          revert hoc
          decide
  unfold errorMatch markerMatch
  cases hfi : firstIdx "ERROR_START\n".data s with
  | none => rfl
  | some i =>
    simp only [Option.some_bind]
    rw [show lastIdxFrom "\nERROR_END".data s (i + ("ERROR_START\n".data).length) = none from
      lastIdxDown_eq_none s.length fun k _ _ => hEEnone k]
    rfl

theorem nl_not_mem_escJsonChar (c : Char) : '\n' ∉ escJsonChar c := by
  unfold escJsonChar
  split_ifs with h1 h2 h3 h4 h5 h6 h7 h8 h9
  · decide
  · decide
  · decide
  · decide
  · decide
  · decide
  · decide
  · exact (by decide : ∀ m, m < 32 → m % 16 < 10 →
      '\n' ∉ ['\\', 'u', '0', '0', Char.ofNat (48 + m / 16),
              Char.ofNat (48 + m % 16)]) c.toNat h8 h9
  · exact (by decide : ∀ m, m < 32 →
      '\n' ∉ ['\\', 'u', '0', '0', Char.ofNat (48 + m / 16),
              Char.ofNat (87 + m % 16)]) c.toNat h8
  · intro hmem
    rw [List.mem_singleton] at hmem
    exact h3 hmem.symm

theorem nl_not_mem_escJson (s : List Char) : '\n' ∉ escJson s := by
  intro hmem
  rw [escJson, List.mem_flatMap] at hmem
  obtain ⟨c, _, hc⟩ := hmem
  exact nl_not_mem_escJsonChar c hc

theorem nl_not_mem_dumpsStr (s : List Char) : '\n' ∉ dumpsStr s := by
  intro hmem
  rw [dumpsStr] at hmem
  rcases List.mem_cons.mp hmem with h | h
  · exact absurd h (by decide)
  · rcases List.mem_append.mp h with h' | h'
    · exact nl_not_mem_escJson s h'
    · exact absurd h' (by decide)

theorem nl_not_mem_natDigitsAux (fuel n : Nat) : '\n' ∉ natDigitsAux fuel n := by
  induction fuel generalizing n with
  | zero => simp [natDigitsAux]
  | succ f ih =>
    unfold natDigitsAux
    split_ifs
    · simp
    · intro hmem
      rcases List.mem_append.mp hmem with h | h
      · exact ih (n / 10) h
      · rw [List.mem_singleton] at h
        exact (by decide : ∀ m, m < 10 → Char.ofNat (48 + m) ≠ '\n')
          (n % 10) (Nat.mod_lt n (by omega)) h.symm

theorem nl_not_mem_natToChars (n : Nat) : '\n' ∉ natToChars n := by
  unfold natToChars
  split_ifs
  · decide
  · exact nl_not_mem_natDigitsAux (n + 1) n

theorem nl_not_mem_intToChars (n : Int) : '\n' ∉ intToChars n := by
  cases n with
  | ofNat m => exact nl_not_mem_natToChars m
  | negSucc m =>
    intro hmem
    rcases List.mem_cons.mp hmem with h | h
    · exact absurd h (by decide)
    · exact nl_not_mem_natToChars (m + 1) h

theorem nl_not_mem_joinSep (sep : List Char) (l : List (List Char))
    (hsep : '\n' ∉ sep) (hl : ∀ x ∈ l, '\n' ∉ x) : '\n' ∉ joinSep sep l := by
  induction l with
  | nil => simp [joinSep]
  | cons x xs ih =>
    cases xs with
    | nil => exact hl x (by simp)
    | cons y ys =>
      rw [joinSep]
      intro hmem
      rcases List.mem_append.mp hmem with h | h
      · rcases List.mem_append.mp h with h' | h'
        · exact hl x (by simp) h'
        · exact hsep h'
      · exact ih (fun z hz => hl z (List.mem_cons_of_mem x hz)) h

theorem nl_not_mem_dumpsSource (s : SourceItem) : '\n' ∉ dumpsSource s := by
  rw [dumpsSource]
  intro hmem
  simp only [List.append_assoc, List.mem_append] at hmem
  rcases hmem with h | h | h | h | h | h | h | h | h
  · exact absurd h (by decide)
  · exact nl_not_mem_dumpsStr _ h
  · exact absurd h (by decide)
  · exact nl_not_mem_intToChars _ h
  · exact absurd h (by decide)
  · exact nl_not_mem_intToChars _ h
  · exact absurd h (by decide)
  · exact nl_not_mem_dumpsStr _ h
  · exact absurd h (by decide)

theorem nl_not_mem_dumpsMeta (m : RespMeta) : '\n' ∉ dumpsMeta m := by
  rw [dumpsMeta]
  intro hmem
  simp only [List.append_assoc, List.mem_append] at hmem
  rcases hmem with h | h | h | h | h | h | h | h | h
  · exact absurd h (by decide)
  · exact nl_not_mem_dumpsStr _ h
  · exact absurd h (by decide)
  · exact nl_not_mem_joinSep _ _ (by decide)
      (fun x hx => by
        rw [List.mem_map] at hx
        obtain ⟨a, _, ha⟩ := hx
        rw [← ha]
        exact nl_not_mem_dumpsStr a) h
  · exact absurd h (by decide)
  · exact nl_not_mem_intToChars _ h
  · exact absurd h (by decide)
  · exact nl_not_mem_natToChars _ h
  · exact absurd h (by decide)

theorem nl_not_mem_dumpsResponse (r : Response) : '\n' ∉ dumpsResponse r := by
  rw [dumpsResponse]
  intro hmem
  simp only [List.append_assoc, List.mem_append] at hmem
  rcases hmem with h | h | h | h | h | h | h
  · exact absurd h (by decide)
  · exact nl_not_mem_dumpsStr _ h
  · exact absurd h (by decide)
  · exact nl_not_mem_joinSep _ _ (by decide)
      (fun x hx => by
        rw [List.mem_map] at hx
        obtain ⟨a, _, ha⟩ := hx
        rw [← ha]
        exact nl_not_mem_dumpsSource a) h
  · exact absurd h (by decide)
  · exact nl_not_mem_dumpsMeta _ h
  · exact absurd h (by decide)

theorem dumpsResponse_head (r : Response) : (dumpsResponse r).head? = some '{' := rfl

theorem resultMatch_scriptSuccess (maxS : Nat) (er : EngineResult) :
    resultMatch (scriptSuccessStdout maxS er) = some (dumpsResponse (buildResponse maxS er)) := by
  rw [scriptSuccessStdout]
  have h := resultMatch_block (dumpsResponse (buildResponse maxS er))
  rw [show (dumpsResponse (buildResponse maxS er) ++ "\nRESULT_END\n".data) =
    (dumpsResponse (buildResponse maxS er) ++ "\nRESULT_END\n".data) from rfl]
  exact h

theorem errorMatch_scriptSuccess (maxS : Nat) (er : EngineResult) :
    errorMatch (scriptSuccessStdout maxS er) = none := by
  rw [scriptSuccessStdout]
  exact errorMatch_resultBlock _ (nl_not_mem_dumpsResponse _) (dumpsResponse_head _)

theorem getField_respJson_success (r : Response) :
    getField (respJson r) "success".data = some (.bool true) := rfl

theorem getField_respJson_sources (r : Response) :
    getField (respJson r) "sources".data = some (.arr (r.sources.map sourceJson)) := rfl

theorem sourcesLen_respJson (r : Response) : sourcesLen (respJson r) = r.sources.length := by
  show (r.sources.map sourceJson).length = r.sources.length
  exact List.length_map r.sources sourceJson

theorem handleClose_errorSome {s cap : List Char} (he : errorMatch s = some cap) :
    handleClose s =
      match jsonParse cap with
      | some errorData =>
        .rejected (.ragError ("RAG Error: ".data ++ jsToString (getField errorData "error".data)))
      | none => .rejected .parseFailed := by
  unfold handleClose
  rw [he]

theorem handleClose_errorNone {s : List Char} (he : errorMatch s = none) :
    handleClose s =
      match resultMatch s with
      | some rcap =>
        (match jsonParse rcap with
         | some result =>
           if truthy (getField result "success".data) then .resolved result
           else .rejected .queryFailed
         | none => .rejected .parseFailed)
      | none => .rejected .noValidResult := by
  unfold handleClose
  rw [he]

theorem statsRun_queryCount (evs : List QueryTermination) : ∀ s : Stats,
    (statsRun s evs).queryCount =
      s.queryCount + (evs.filter isClosedTermination).length := by
  induction evs with
  | nil => intro s; simp [statsRun]
  | cons e es ih =>
    intro s
    cases e with
    | closed d out =>
      rw [statsRun, ih]
      simp [statsAfterQuery, closeStatsUpdate, isClosedTermination, List.filter]
      omega
    | spawnErrorNoClose =>
      rw [statsRun, ih]
      simp [statsAfterQuery, isClosedTermination, List.filter]
    | rejectedBeforeDispatch =>
      rw [statsRun, ih]
      simp [statsAfterQuery, isClosedTermination, List.filter]

theorem statsRun_totalTime (evs : List QueryTermination) : ∀ s : Stats,
    (statsRun s evs).totalQueryTime =
      s.totalQueryTime + (evs.map closedDuration).sum := by
  induction evs with
  | nil => intro s; simp [statsRun]
  | cons e es ih =>
    intro s
    cases e with
    | closed d out =>
      rw [statsRun, ih]
      simp [statsAfterQuery, closeStatsUpdate, closedDuration]
      omega
    | spawnErrorNoClose =>
      rw [statsRun, ih]
      simp [statsAfterQuery, closedDuration]
    | rejectedBeforeDispatch =>
      rw [statsRun, ih]
      simp [statsAfterQuery, closedDuration]

/-- C8: for a source content of length greater than 500 (for instance 600),
the excerpt placed in the response is exactly the first 500 characters
followed by the 3-character ellipsis marker, total length 503; content of
length at most 500 is passed through unchanged with no marker. -/
theorem C8_content_truncation (content : List Char) :
    (content.length > 500 →
      truncateContent content = content.take 500 ++ "...".data ∧
      (truncateContent content).length = 503) ∧
    (content.length ≤ 500 → truncateContent content = content) := by
  constructor
  · intro h
    constructor
    · rw [truncateContent, if_pos h]
    · rw [truncateContent, if_pos h, List.length_append, List.length_take]
      simp
      omega
  · intro h
    rw [truncateContent, if_neg (by omega), List.append_nil]
    exact List.take_of_length_le h

/-- C8 witness: evaluation at a 600-character content and at a short one. -/
theorem C8_witness :
    truncateContent (List.replicate 600 'a') =
      (List.replicate 600 'a').take 500 ++ "...".data ∧
    (truncateContent (List.replicate 600 'a')).length = 503 ∧
    truncateContent "short".data = "short".data := by
  have h1 := (C8_content_truncation (List.replicate 600 'a')).1
    (by rw [List.length_replicate]; omega)
  have h2 := (C8_content_truncation "short".data).2 (by decide)
  exact ⟨h1.1, h1.2, h2⟩

/-- C9: the reported average query time is `totalQueryTime / queryCount`
exactly when `queryCount > 0`, and the zero sentinel when `queryCount = 0`;
the division only occurs under the positivity guard. -/
theorem C9_average_guard (isInitialized : Bool) (s : Stats) :
    (0 < s.queryCount →
      (getStats isInitialized s).averageQueryTime =
        (s.totalQueryTime : ℚ) / (s.queryCount : ℚ)) ∧
    (s.queryCount = 0 → (getStats isInitialized s).averageQueryTime = 0) := by
  constructor
  · intro h
    show (if s.queryCount > 0 then (s.totalQueryTime : ℚ) / (s.queryCount : ℚ) else 0) = _
    rw [if_pos h]
  · intro h
    show (if s.queryCount > 0 then (s.totalQueryTime : ℚ) / (s.queryCount : ℚ) else 0) = 0
    rw [if_neg (by omega)]

/-- C9 witness: evaluation at two queries totalling 10 ms and at no queries. -/
theorem C9_witness :
    (getStats true ⟨2, 10⟩).averageQueryTime = 5 ∧
    (getStats true ⟨0, 0⟩).averageQueryTime = 0 := by
  constructor
  · rw [(C9_average_guard true ⟨2, 10⟩).1 (by decide)]
    norm_num
  · exact (C9_average_guard true ⟨0, 0⟩).2 rfl

/-- C6: if the startup probe never succeeded (nonzero exit code or missing
`Python OK` marker), every `query` call is rejected by the pre-dispatch
guard with the not-initialized error — mapped to `ServiceNotInitialized` —
and spawns no external process. -/
theorem C6_not_initialized_guard (code : Int) (output : List Char)
    (h : probeSuccess code output = false) :
    queryDispatch (probeSuccess code output) = .rejectedNoSpawn .notInitialized ∧
    spawnsOf (queryDispatch (probeSuccess code output)) = 0 ∧
    kindOf .notInitialized = some .serviceNotInitialized := by
  rw [h]
  exact ⟨rfl, rfl, rfl⟩

/-- C6 witness: a probe that exited with code 1 and printed no marker. -/
theorem C6_witness :
    queryDispatch (probeSuccess 1 "no python here".data) = .rejectedNoSpawn .notInitialized ∧
    spawnsOf (queryDispatch (probeSuccess 1 "no python here".data)) = 0 := by
  have h := C6_not_initialized_guard 1 "no python here".data (by decide)
  exact ⟨h.1, h.2.1⟩

/-- C10: statistics are updated exactly once per spawned process, at its
'close' event — `queryCount` incremented and the elapsed duration added —
regardless of the captured stdout and hence of whether the query then
succeeds or fails; a pre-dispatch rejection or a spawn error without a
'close' event changes nothing; over any sequence of attempts the count grows
by exactly the number of 'close' events and the time by the sum of their
durations. -/
theorem C10_stats_once_per_close (s : Stats) (evs : List QueryTermination) :
    (∀ duration stdout, statsAfterQuery s (.closed duration stdout) =
      ⟨s.queryCount + 1, s.totalQueryTime + duration⟩) ∧
    statsAfterQuery s .spawnErrorNoClose = s ∧
    statsAfterQuery s .rejectedBeforeDispatch = s ∧
    (statsRun s evs).queryCount =
      s.queryCount + (evs.filter isClosedTermination).length ∧
    (statsRun s evs).totalQueryTime =
      s.totalQueryTime + (evs.map closedDuration).sum := by
  exact ⟨fun d out => rfl, rfl, rfl, statsRun_queryCount evs s, statsRun_totalTime evs s⟩

/-- C2: the 60 000 ms timer is armed at dispatch; if the process closes
first, the close outcome settles the promise and the later timer rejection
is a no-op; if the timer fires first, the process is killed, the promise is
rejected with the timeout error, and the later close settlement is a no-op;
a settled promise is never settled again. -/
theorem C2_timeout_race (stdout : List Char) (t : Nat) :
    (t < QUERY_TIMEOUT_MS →
      runQueryRace (some t) stdout = ⟨some (handleClose stdout), true⟩) ∧
    (QUERY_TIMEOUT_MS ≤ t →
      runQueryRace (some t) stdout = ⟨some (.rejected .timeout), true⟩) ∧
    runQueryRace none stdout = ⟨some (.rejected .timeout), true⟩ ∧
    (∀ st e x, st.promise = some x → settleR st e = st) := by
  refine ⟨?_, ?_, rfl, ?_⟩
  · intro h
    show (if t < QUERY_TIMEOUT_MS then onTimeout (onClose stdout initRace)
          else onClose stdout (onTimeout initRace)) = _
    rw [if_pos h]
    rfl
  · intro h
    show (if t < QUERY_TIMEOUT_MS then onTimeout (onClose stdout initRace)
          else onClose stdout (onTimeout initRace)) = _
    rw [if_neg (by omega)]
    rfl
  · intro st e x hx
    unfold settleR
    rw [hx]

/-- C2 witness: a close at 100 ms wins the race; a close at exactly the
deadline loses it. -/
theorem C2_witness :
    runQueryRace (some 100) "noise".data = ⟨some (handleClose "noise".data), true⟩ ∧
    runQueryRace (some 60000) "noise".data = ⟨some (.rejected .timeout), true⟩ := by
  exact ⟨(C2_timeout_race "noise".data 100).1 (by decide),
         (C2_timeout_race "noise".data 60000).2.1 (by decide)⟩

/-- C3 counterexample: on output with two well-formed marker pairs the
extracted payload is not the first pair's content `A` but a span reaching
the later end marker. -/
theorem C3_counterexample :
    resultMatch c3Stdout = some "A\nRESULT_END\nRESULT_START\nB".data ∧
    resultMatch c3Stdout ≠ some "A".data := by
  constructor
  · decide
  · decide

/-- C3 (amended): the regex `(.*)` is greedy, so for any stacked pair of
well-formed result regions the capture runs from just after the first start
marker to the last end marker, spanning the intermediate markers. -/
theorem C3_greedy_match (a b : List Char) :
    resultMatch ("RESULT_START\n".data ++
      (a ++ ("\nRESULT_END\nRESULT_START\n".data ++ (b ++ "\nRESULT_END".data)))) =
    some (a ++ ("\nRESULT_END\nRESULT_START\n".data ++ b)) := by
  set S : List Char := "RESULT_START\n".data with hS
  set M : List Char := "\nRESULT_END\nRESULT_START\n".data with hM
  set E : List Char := "\nRESULT_END".data with hE
  set s : List Char := S ++ (a ++ (M ++ (b ++ E))) with hs
  have hS13 : S.length = 13 := by decide
  have hM25 : M.length = 25 := by decide
  have hE11 : E.length = 11 := by decide
  have hslen : s.length = 49 + a.length + b.length := by
    simp [hs, hS13, hM25, hE11]
    omega
  have hgrp : s = (S ++ a ++ M ++ b) ++ E := by simp [hs]
  have hglen : (S ++ a ++ M ++ b).length = 38 + a.length + b.length := by
    simp [hS13, hM25]
    omega
  have hocc : occursAt E s (38 + a.length + b.length) = true := by
    unfold occursAt
    rw [hgrp, show 38 + a.length + b.length = (S ++ a ++ M ++ b).length from hglen.symm,
      List.drop_left]
    decide
  have hnone : ∀ k, 38 + a.length + b.length < k → k ≤ s.length →
      occursAt E s k = false := by
    intro k hk1 hk2
    cases hoc : occursAt E s k with
    | false => rfl
    | true =>
      exfalso
      have hle := occursAt_add_length_le (by decide : E ≠ []) hoc
      rw [hE11, hslen] at hle
      omega
  have hlast : lastIdxFrom E s 13 = some (38 + a.length + b.length) := by
    unfold lastIdxFrom
    exact lastIdxDown_eq_some s.length (by omega) (by omega) hocc hnone
  have hd13 : s.drop 13 = a ++ (M ++ (b ++ E)) := by
    rw [hs, show (13 : Nat) = S.length from hS13.symm]
    exact List.drop_left _ _
  unfold resultMatch markerMatch
  rw [show firstIdx "RESULT_START\n".data s = some 0 from
        firstIdx_of_prefixAt0 (isPrefixOf_self_append _ _)]
  simp only [Option.some_bind]
  rw [show (0 + ("RESULT_START\n".data).length) = 13 by decide]
  rw [show lastIdxFrom "\nRESULT_END".data s 13 = some (38 + a.length + b.length) from hlast]
  simp only [Option.map_some']
  rw [hd13, show 38 + a.length + b.length - 13 = (a ++ (M ++ b)).length by
    simp [hM25]; omega]
  rw [show a ++ (M ++ (b ++ E)) = (a ++ (M ++ b)) ++ E by simp, List.take_left]

/-- C4: when the captured output contains both a well-formed error region
and a well-formed result region, the close handler never resolves; with the
error payload parsing as JSON it rejects with the backend error, which the
taxonomy maps to `ExternalBackendError`. -/
theorem C4_error_precedence (s cap : List Char) (he : errorMatch s = some cap)
    (hr : (resultMatch s).isSome) :
    (∀ j, handleClose s ≠ .resolved j) ∧
    (∀ payload, jsonParse cap = some payload →
      handleClose s = .rejected (.ragError
        ("RAG Error: ".data ++ jsToString (getField payload "error".data))) ∧
      kindOf (.ragError ("RAG Error: ".data ++ jsToString (getField payload "error".data)))
        = some .externalBackendError) := by
  constructor
  · intro j
    rw [handleClose_errorSome he]
    cases hp : jsonParse cap with
    | none => simp
    | some payload => simp
  · intro payload hp
    rw [handleClose_errorSome he, hp]
    exact ⟨rfl, rfl⟩

set_option maxRecDepth 4000 in
/-- C4 witness: concrete output holding an error region followed by a
result region. -/
theorem C4_witness :
    (∀ j, handleClose c4Stdout ≠ .resolved j) ∧
    handleClose c4Stdout = .rejected (.ragError "RAG Error: tb".data) := by
  have h := C4_error_precedence c4Stdout
    "\x7b\"success\":false,\"error\":\"tb\",\"type\":\"KeyError\"\x7d".data
    (by rfl) (by rfl)
  refine ⟨h.1, ?_⟩
  have h2 := (h.2 (errorPayloadJson "tb".data "KeyError".data) (by rfl)).1
  exact h2

set_option maxRecDepth 4000 in
/-- C5 counterexample: on the spec's own scenario the rejection message is
`RAG Error: boom`; the classification string `ValueError` occurs nowhere in
the rejection, so the type is not forwarded alongside the message. -/
theorem C5_counterexample :
    handleClose c5Stdout = .rejected (.ragError "RAG Error: boom".data) ∧
    firstIdx "ValueError".data "RAG Error: boom".data = none := by
  constructor
  · rfl
  · decide

/-- C5 (amended): for any output whose error region parses as
`{success:false, error:e, type:t}`, the query rejects with an
`ExternalBackendError` whose message is `RAG Error: ` followed by the
backend message `e`; the classification string `t` is dropped, not
forwarded. -/
theorem C5_error_forwarding (s cap e t : List Char) (he : errorMatch s = some cap)
    (hp : jsonParse cap = some (errorPayloadJson e t)) :
    handleClose s = .rejected (.ragError ("RAG Error: ".data ++ e)) ∧
    kindOf (.ragError ("RAG Error: ".data ++ e)) = some .externalBackendError := by
  rw [handleClose_errorSome he, hp]
  exact ⟨rfl, rfl⟩

set_option maxRecDepth 4000 in
/-- C5 witness: evaluated at the spec's concrete scenario. -/
theorem C5_witness :
    handleClose c5Stdout = .rejected (.ragError ("RAG Error: ".data ++ "boom".data)) := by
  exact (C5_error_forwarding c5Stdout
    "\x7b\"success\":false,\"error\":\"boom\",\"type\":\"ValueError\"\x7d".data
    "boom".data "ValueError".data (by rfl) (by rfl)).1

set_option maxRecDepth 8000 in
/-- C7: the serialization escapes only double quotes, which does not keep
every question from breaking the invocation: a question consisting of a
single backslash leaves the generated Python script's question literal
unterminated (a syntax error), while an ordinary question yields a
well-formed literal. -/
theorem C7_escaping_incomplete :
    questionLiteralTerminates "\\".data (some 5) = false ∧
    questionLiteralTerminates "What is the speed limit on highways?".data (some 5) = true := by
  constructor
  · rfl
  · rfl

theorem handleClose_rejected_kind (out : List Char) (r : RejectReason)
    (h : handleClose out = .rejected r) : (kindOf r).isSome = true := by
  unfold handleClose at h
  split at h
  · split at h
    · injection h with h'
      rw [← h']
      rfl
    · injection h with h'
      rw [← h']
      rfl
  · split at h
    · split at h
      · split at h
        · exact absurd h (by simp)
        · injection h with h'
          rw [← h']
          rfl
      · injection h with h'
        rw [← h']
        rfl
    · injection h with h'
      rw [← h']
      rfl

/-- C1: for every valid question (1-1000 characters) and `maxSources` in
[1,10] (which the `options.maxSources || 5` interpolation passes through
unchanged), when the backend behaves as the generated script's success path
the close handler resolves with the parsed result, whose `sources` list has
length at most `maxSources`; every rejection the close handler can produce
carries one of the documented error kinds; and for any close time and
captured output the query promise settles (never silently nothing), at most
once. -/
theorem C1_query_contract (q : List Char) (hq1 : 1 ≤ q.length) (hq2 : q.length ≤ 1000)
    (maxS : Nat) (h1 : 1 ≤ maxS) (h10 : maxS ≤ 10) (er : EngineResult)
    (hrt : jsonParse (dumpsResponse (buildResponse maxS er))
      = some (respJson (buildResponse maxS er))) :
    handleClose (scriptSuccessStdout maxS er) = .resolved (respJson (buildResponse maxS er)) ∧
    sourcesLen (respJson (buildResponse maxS er)) ≤ maxS ∧
    effectiveMaxSources (some maxS) = maxS ∧
    (∀ out r, handleClose out = .rejected r → (kindOf r).isSome = true) ∧
    (∀ closeAt out, ((runQueryRace closeAt out).promise).isSome = true) := by
  refine ⟨?_, ?_, ?_, ?_, ?_⟩
  · rw [handleClose_errorNone (errorMatch_scriptSuccess maxS er),
      resultMatch_scriptSuccess maxS er]
    dsimp only
    rw [hrt]
    rfl
  · rw [sourcesLen_respJson]
    show ((er.relevant_chunks.take maxS).map mkSourceItem).length ≤ maxS
    rw [List.length_map, List.length_take]
    exact min_le_left _ _
  · show (if maxS == 0 then 5 else maxS) = maxS
    have h0 : (maxS == 0) = false := by
      simp only [beq_eq_false_iff_ne, ne_eq]
      omega
    rw [h0]
    simp
  · exact fun out r h => handleClose_rejected_kind out r h
  · intro closeAt out
    cases closeAt with
    | none => rfl
    | some t =>
      show ((if t < QUERY_TIMEOUT_MS then onTimeout (onClose out initRace)
             else onClose out (onTimeout initRace)).promise).isSome = true
      by_cases hT : t < QUERY_TIMEOUT_MS
      · rw [if_pos hT]
        rfl
      · rw [if_neg hT]
        rfl

set_option maxRecDepth 12000 in
/-- C1 witness: evaluated at a concrete valid question, `maxSources` 5 and a
two-chunk engine result. -/
theorem C1_witness :
    handleClose (scriptSuccessStdout 5 c1Engine) =
      .resolved (respJson (buildResponse 5 c1Engine)) ∧
    sourcesLen (respJson (buildResponse 5 c1Engine)) ≤ 5 := by
  have h := C1_query_contract "What is the speed limit?".data (by decide) (by decide)
    5 (by decide) (by decide) c1Engine (by rfl)
  exact ⟨h.1, h.2.1⟩
